import Mathlib

/-!
# Verification of the Bazel/GCB build dispatch and materialization layer

Shallow embedding of `pkg/skaffold/build/bazel/bazel.go` and the GCB builder
file (`DependenciesForArtifact` of the `gcb` package). Go's in-place mutation
of `*latest.Artifact` is modelled by explicit state passing: every function
that mutates an artifact returns the post-state together with the
`error` (an `Option String`, `none` meaning `nil` error), and `Build`
threads the whole artifact batch through.

External collaborators (the bazel/docker dependency enumerators,
`kubectx.CurrentContext`, `local.NewBuilder` and the delegated builder it
returns) are parameters of the embedded functions, exactly as the Go code
calls them through stable interfaces.
-/

namespace Skaffold

/-! ## Data model -/

/-- Modelled from the spec: `latest.BazelArtifact`, the Bazel backend's
config variant; its required field is the build-target string
(`BuildTarget`). The schema itself lives outside the shown source. -/
structure BazelArtifact where
  buildTarget : String
deriving DecidableEq, Repr

/-- Modelled from the spec: `latest.DockerArtifact`, the Docker backend's
config variant (opaque here: the gcb code only passes it through to the
docker dependency enumerator). -/
structure DockerArtifact where
  dockerfile : String := ""
deriving DecidableEq, Repr

/-- `latest.ArtifactType`: a tagged union, at most one concrete backend
payload populated at a time (`nil` pointers become `none`). -/
structure ArtifactType where
  bazelArtifact : Option BazelArtifact := none
  dockerArtifact : Option DockerArtifact := none
deriving DecidableEq, Repr

/-- Modelled from the spec: the opaque `BuilderPlugin.Contents` byte blob,
seen through the eyes of the YAML decoder: it either parses to an empty
(nil) document, parses to a mapping of string fields, or fails to parse. -/
inductive Contents where
  | empty : Contents
  | mapping (fields : List (String × String)) : Contents
  | malformed (e : String) : Contents
deriving DecidableEq, Repr

/-- `latest.BuilderPlugin`: the generically-stored payload decoded on first
use. -/
structure BuilderPlugin where
  contents : Contents
deriving DecidableEq, Repr

/-- `latest.Artifact`: identity and build instructions for one image. -/
structure Artifact where
  imageName : String
  workspace : String
  artifactType : ArtifactType := {}
  builderPlugin : BuilderPlugin
deriving DecidableEq, Repr

/-- Modelled from the spec: `latest.LocalBuild`, the local backend's
environment-config variant ("local build options"); its zero value is a
valid default. -/
structure LocalBuild where
  push : Bool := false
deriving DecidableEq, Repr

/-- Modelled from the spec: `latest.ExecutionEnvironment.Properties`, the
opaque generic key/value bag, seen through the structural converter: a nil
bag, a generic bag of string fields, or an intermediate representation whose
structural conversion fails. -/
inductive Properties where
  | nil : Properties
  | bag (fields : List (String × String)) : Properties
  | malformed (e : String) : Properties
deriving DecidableEq, Repr

/-- `latest.ExecutionEnvironment`: a name and a generic properties bag. -/
structure ExecutionEnvironment where
  name : String
  properties : Properties := .nil
deriving DecidableEq, Repr

/-- `build.Artifact`: the build result for one artifact (image + tag). -/
structure BuildResult where
  imageName : String
  tag : String
deriving DecidableEq, Repr

/-- Modelled from the spec: `constants.Local`, the name of the local
execution environment (the supported set of the bazel dispatcher). -/
def constantsLocal : String := "local"

/-- `errors.Wrap`/`errors.Wrapf` of github.com/pkg/errors: the wrapped
error's message is `msg ++ ": " ++ cause`. -/
def wrap (msg cause : String) : String := msg ++ ": " ++ cause

/-! ## Materializer (`setArtifact`) -/

/-- Modelled from the spec: the field names of the Bazel config schema, as
used in the spec's concrete scenario (`Contents: "buildTarget: //:app"`). -/
def bazelKnownFields : List String := ["buildTarget"]

/-- Modelled from the spec: `yaml.UnmarshalStrict` into a
`*latest.BazelArtifact`: a strict decode that fails on fields unknown to the
Bazel schema, yields `none` (a nil pointer) for an empty document, and
otherwise fills `BuildTarget` from the mapping (absent field = zero value). -/
def unmarshalStrict : Contents → Except String (Option BazelArtifact)
  | .malformed e => .error e
  | .empty => .ok none
  | .mapping fields =>
    match fields.find? (fun kv => !(bazelKnownFields.contains kv.1)) with
    | some kv => .error ("field " ++ kv.1 ++ " not found in type bazel.BazelArtifact")
    | none => .ok (some { buildTarget := ((fields.lookup "buildTarget").getD "") })

/-- `setArtifact` of `bazel.go`: materializes the artifact's Bazel config in
place. Returns the post-state of the artifact and the Go error (`none` =
`nil`). -/
def setArtifact (artifact : Artifact) : Artifact × Option String :=
  if artifact.artifactType.bazelArtifact.isSome then
    (artifact, none)
  else
    match unmarshalStrict artifact.builderPlugin.contents with
    | .error e => (artifact, some (wrap "unmarshalling bazel artifact" e))
    | .ok none => (artifact, some "artifact is nil")
    | .ok (some a) =>
      if a.buildTarget = "" then
        (artifact, some (artifact.imageName ++ " must have an associated build target"))
      else
        ({ artifact with artifactType := { artifact.artifactType with bazelArtifact := some a } },
         none)

/-! ## Dependency resolver -/

/-- Modelled from the spec: `util.AbsolutePaths`' notion of an absolute
path (`filepath.IsAbs` on unix: the path starts with `/`). -/
def isAbs (p : String) : Bool := p.data.head? = some '/'

/-- Modelled from the spec: anchoring a relative path at the workspace
(`filepath.Join(workspace, path)`). -/
def joinPath (workspace p : String) : String := workspace ++ "/" ++ p

/-- Modelled from the spec: `util.AbsolutePaths` — every relative path is
anchored at the workspace, absolute paths are passed through. -/
def absolutePaths (workspace : String) (paths : List String) : List String :=
  paths.map (fun p => if isAbs p then p else joinPath workspace p)

/-- `DependenciesForArtifact` of `bazel.go`. The external bazel dependency
enumerator `bazel.GetDependencies` is the parameter `getDeps` (the `ctx`
argument is dropped: the embedding is of the sequential data flow).
Returns the post-state of the artifact (it is materialized on demand via
`setArtifact`) and the result. -/
def DependenciesForArtifact
    (getDeps : String → BazelArtifact → Except String (List String))
    (artifact : Artifact) : Artifact × Except String (List String) :=
  match setArtifact artifact with
  | (a', some e) => (a', .error e)
  | (a', none) =>
    match a'.artifactType.bazelArtifact with
    | none => (a', .error "bazel artifact is nil")
    | some ba =>
      match getDeps a'.workspace ba with
      | .error e => (a', .error (wrap "getting bazel dependencies" e))
      | .ok paths => (a', .ok (absolutePaths a'.workspace paths))

/-- `DependenciesForArtifact` of the gcb package: delegates to the docker
dependency enumerator (parameter `getDeps`) with the artifact's workspace
and Docker config, wraps failures with the image name, and normalizes the
returned paths. It does not mutate the artifact. -/
def gcbDependenciesForArtifact
    (getDeps : String → Option DockerArtifact → Except String (List String))
    (a : Artifact) : Except String (List String) :=
  match getDeps a.workspace a.artifactType.dockerArtifact with
  | .error e => .error (wrap ("getting dependencies for " ++ a.imageName) e)
  | .ok paths => .ok (absolutePaths a.workspace paths)

/-! ## Environment adapter and dispatcher -/

/-- Modelled from the spec: `util.CloneThroughJSON(env.Properties, &l)` for
`l : *latest.LocalBuild` — a structural re-encode/decode: a nil bag leaves
the target pointer nil, a generic bag maps known fields by name (unknown
source fields ignored, absent target fields zero-valued), and a malformed
intermediate representation fails. -/
def cloneThroughJSON : Properties → Except String (Option LocalBuild)
  | .nil => .ok none
  | .bag fields => .ok (some { push := ((fields.lookup "push").getD "false") = "true" })
  | .malformed e => .error e

/-- The environment-adaptation step at the top of `(*Builder).local`:
convert the properties bag and substitute the zero value when the pointer
stayed nil (`if l == nil { l = &latest.LocalBuild{} }`). -/
def adaptEnv (props : Properties) : Except String LocalBuild :=
  match cloneThroughJSON props with
  | .error e => .error (wrap "converting execution env to localBuild struct" e)
  | .ok none => .ok {}
  | .ok (some l) => .ok l

/-- The materialization loop of `(*Builder).local`: `setArtifact` on each
artifact in order, stopping at the first failure and wrapping its error
with `"setting artifact <image>"`. Returns the post-states of the
artifacts (later artifacts are untouched after a failure). -/
def setArtifacts : List Artifact → List Artifact × Option String
  | [] => ([], none)
  | a :: rest =>
    match setArtifact a with
    | (a', some e) => (a' :: rest, some (wrap ("setting artifact " ++ a.imageName) e))
    | (a', none) =>
      let (rest', err) := setArtifacts rest
      (a' :: rest', err)

/-- `(*Builder).local`: adapts the environment, gets the cluster context
(`currentContext`, external), builds the local builder (`newBuilder`,
external factory returning the delegated builder's `Build` function),
materializes every artifact, then delegates. Returns the post-state of the
artifact batch and the result. -/
def localBuild (env : ExecutionEnvironment) (skipTests : Bool)
    (currentContext : Except String String)
    (newBuilder : LocalBuild → String → Bool →
      Except String (List Artifact → Except String (List BuildResult)))
    (artifacts : List Artifact) :
    List Artifact × Except String (List BuildResult) :=
  match adaptEnv env.properties with
  | .error e => (artifacts, .error e)
  | .ok l =>
    match currentContext with
    | .error e => (artifacts, .error (wrap "getting current cluster context" e))
    | .ok kubeContext =>
      match newBuilder l kubeContext skipTests with
      | .error e => (artifacts, .error (wrap "getting local builder" e))
      | .ok builderBuild =>
        match setArtifacts artifacts with
        | (arts', some e) => (arts', .error e)
        | (arts', none) => (arts', builderBuild arts')

/-- `(*Builder).Build`: the environment dispatcher — `"local"` routes to
`localBuild`, everything else is rejected without touching any artifact. -/
def Build (env : ExecutionEnvironment) (skipTests : Bool)
    (currentContext : Except String String)
    (newBuilder : LocalBuild → String → Bool →
      Except String (List Artifact → Except String (List BuildResult)))
    (artifacts : List Artifact) :
    List Artifact × Except String (List BuildResult) :=
  if env.name = constantsLocal then
    localBuild env skipTests currentContext newBuilder artifacts
  else
    (artifacts, .error (env.name ++ " is not a supported environment for builder bazel"))

/-! ## Basic lemmas about the materializer -/

/-- On any error, `setArtifact` leaves the artifact untouched (the only
in-place mutation in the Go code is the assignment on the success path). -/
theorem setArtifact_error_fst {a : Artifact} {e : String}
    (h : (setArtifact a).2 = some e) : (setArtifact a).1 = a := by
  unfold setArtifact at *
  split at h
  · simp at h
  · split at h
    · simp_all
    · simp_all
    · split at h <;> simp_all

/-- `setArtifact` never changes the image name, the workspace or the
plugin payload of the artifact. -/
theorem setArtifact_preserves_meta (a : Artifact) :
    (setArtifact a).1.imageName = a.imageName ∧
    (setArtifact a).1.workspace = a.workspace ∧
    (setArtifact a).1.builderPlugin = a.builderPlugin := by
  unfold setArtifact
  split
  · exact ⟨rfl, rfl, rfl⟩
  · split
    · exact ⟨rfl, rfl, rfl⟩
    · exact ⟨rfl, rfl, rfl⟩
    · split
      · exact ⟨rfl, rfl, rfl⟩
      · exact ⟨rfl, rfl, rfl⟩

/-- After a successful `setArtifact`, the Bazel payload is populated. -/
theorem setArtifact_ok_bazelSome {a a' : Artifact}
    (h : setArtifact a = (a', none)) :
    ∃ b, a'.artifactType.bazelArtifact = some b := by
  unfold setArtifact at h
  split at h
  · next hsome =>
    obtain ⟨b, hb⟩ := Option.isSome_iff_exists.mp hsome
    cases h
    exact ⟨b, hb⟩
  · split at h
    · simp_all
    · simp_all
    · split at h
      · simp_all
      · cases h
        exact ⟨_, rfl⟩

/-! ## C1: idempotent materialization -/

/-- C1: Materialization is idempotent: whenever `ArtifactType` already holds
the concrete Bazel payload, `setArtifact` returns success immediately with
the artifact unchanged — the equation holds for every `BuilderPlugin.Contents`,
so no decode happens — and a second call after any successful call returns
the same artifact state again. -/
theorem setArtifact_idempotent :
    (∀ (a : Artifact) (b : BazelArtifact),
      a.artifactType.bazelArtifact = some b → setArtifact a = (a, none)) ∧
    (∀ (a a' : Artifact), setArtifact a = (a', none) → setArtifact a' = (a', none)) := by
  have base : ∀ (a : Artifact) (b : BazelArtifact),
      a.artifactType.bazelArtifact = some b → setArtifact a = (a, none) := by
    intro a b h
    unfold setArtifact
    simp [h]
  refine ⟨base, ?_⟩
  intro a a' h
  obtain ⟨b, hb⟩ := setArtifact_ok_bazelSome h
  exact base a' b hb

/-- A fresh (not yet materialized) artifact with a well-formed payload. -/
def freshArtifact : Artifact :=
  { imageName := "app", workspace := "/src",
    builderPlugin := { contents := .mapping [("buildTarget", "//:app")] } }

/-- `freshArtifact` after one successful materialization. -/
def freshArtifactOnce : Artifact :=
  { imageName := "app", workspace := "/src",
    artifactType := { bazelArtifact := some { buildTarget := "//:app" } },
    builderPlugin := { contents := .mapping [("buildTarget", "//:app")] } }

/-- Witness for C1: the second call on the concretely materialized artifact
returns it unchanged. -/
theorem setArtifact_idempotent_witness :
    setArtifact freshArtifactOnce = (freshArtifactOnce, none) :=
  setArtifact_idempotent.2 freshArtifact freshArtifactOnce rfl

/-! ## C3: strict decode -/

/-- C3: Strict decode: on a not-yet-materialized artifact whose payload
contains a field outside the Bazel config schema, `setArtifact` fails with
the wrapped decode error and leaves the artifact unchanged. -/
theorem setArtifact_strictDecode (a : Artifact) (fields : List (String × String))
    (k v : String)
    (hnone : a.artifactType.bazelArtifact = none)
    (hc : a.builderPlugin.contents = .mapping fields)
    (hmem : (k, v) ∈ fields) (hk : ¬ k ∈ bazelKnownFields) :
    ∃ e, setArtifact a = (a, some (wrap "unmarshalling bazel artifact" e)) := by
  have hsome : (fields.find? (fun kv => !(bazelKnownFields.contains kv.1))).isSome := by
    rw [List.find?_isSome]
    exact ⟨(k, v), hmem, by simp [hk]⟩
  obtain ⟨kv, hkv⟩ := Option.isSome_iff_exists.mp hsome
  refine ⟨"field " ++ kv.1 ++ " not found in type bazel.BazelArtifact", ?_⟩
  unfold setArtifact
  rw [hnone]
  simp only [Option.isSome_none, Bool.false_eq_true, if_false]
  rw [hc]
  simp only [unmarshalStrict]
  rw [hkv]

/-- A fresh artifact whose payload misspells the build-target field. -/
def unknownFieldArtifact : Artifact :=
  { imageName := "app", workspace := "/src",
    builderPlugin := { contents := .mapping [("buildTarghet", "//:app")] } }

/-- Witness for C3: the misspelled field makes `setArtifact` fail with a
wrapped decode error. -/
theorem setArtifact_strictDecode_witness :
    ∃ e, setArtifact unknownFieldArtifact =
      (unknownFieldArtifact, some (wrap "unmarshalling bazel artifact" e)) :=
  setArtifact_strictDecode unknownFieldArtifact [("buildTarghet", "//:app")]
    "buildTarghet" "//:app" rfl rfl (by decide) (by decide)

/-! ## C4: required-field validation names the artifact -/

/-- C4: On a not-yet-materialized artifact whose payload decodes to a config
with an empty build target, `setArtifact` fails with an error whose message
starts with (hence contains) the artifact's image name, and the artifact —
in particular its `ArtifactType` — is left unchanged. -/
theorem setArtifact_validationNamesImage (a : Artifact) (cfg : BazelArtifact)
    (hnone : a.artifactType.bazelArtifact = none)
    (hdec : unmarshalStrict a.builderPlugin.contents = .ok (some cfg))
    (hbt : cfg.buildTarget = "") :
    setArtifact a = (a, some (a.imageName ++ " must have an associated build target")) ∧
    a.imageName.data <+: (a.imageName ++ " must have an associated build target").data := by
  constructor
  · unfold setArtifact
    simp [hnone, hdec, hbt]
  · rw [String.data_append]
    exact List.prefix_append _ _

/-- A fresh artifact whose payload decodes to an empty build target. -/
def emptyTargetArtifact : Artifact :=
  { imageName := "app", workspace := "/src",
    builderPlugin := { contents := .mapping [("buildTarget", "")] } }

/-- Witness for C4: the concrete empty-target artifact fails with the error
naming "app", unchanged. -/
theorem setArtifact_validationNamesImage_witness :
    setArtifact emptyTargetArtifact =
      (emptyTargetArtifact, some ("app" ++ " must have an associated build target")) :=
  (setArtifact_validationNamesImage emptyTargetArtifact { buildTarget := "" }
    rfl rfl rfl).1

/-! ## C10: pre-populated configs bypass validation -/

/-- C10: A pre-populated `BazelArtifact` bypasses both decode and
validation: `setArtifact` succeeds even when the stored build target is
empty (and even when the plugin payload is malformed), while any config
freshly materialized by `setArtifact` itself necessarily has a non-empty
build target. -/
theorem setArtifact_bypassesValidation :
    (∀ (a : Artifact) (b : BazelArtifact),
      a.artifactType.bazelArtifact = some b → b.buildTarget = "" →
      setArtifact a = (a, none)) ∧
    (∀ (a a' : Artifact), a.artifactType.bazelArtifact = none →
      setArtifact a = (a', none) →
      ∃ b, a'.artifactType.bazelArtifact = some b ∧ b.buildTarget ≠ "") := by
  constructor
  · intro a b h _
    unfold setArtifact
    simp [h]
  · intro a a' hnone h
    unfold setArtifact at h
    rw [hnone] at h
    simp only [Option.isSome_none, Bool.false_eq_true, if_false] at h
    split at h
    · simp at h
    · simp at h
    · rename_i cfg hcfg
      split at h
      · simp at h
      · rename_i hbt
        injection h with h1 h2
        subst h1
        exact ⟨cfg, rfl, hbt⟩

/-- An artifact whose Bazel payload is pre-populated with an empty build
target and whose plugin payload is malformed. -/
def prePopulatedEmptyTarget : Artifact :=
  { imageName := "app", workspace := "/src",
    artifactType := { bazelArtifact := some { buildTarget := "" } },
    builderPlugin := { contents := .malformed "unparsable" } }

/-- Witness for C10: `setArtifact` succeeds on the pre-populated
empty-target artifact without touching it. -/
theorem setArtifact_bypassesValidation_witness :
    setArtifact prePopulatedEmptyTarget = (prePopulatedEmptyTarget, none) :=
  setArtifact_bypassesValidation.1 prePopulatedEmptyTarget { buildTarget := "" } rfl rfl

/-! ## C5: dispatcher rejection -/

/-- C5: The dispatcher's supported set is exactly `{constants.Local}`: for
any environment whose name is not `constants.Local`, `Build` returns the
rejection error naming that environment with the artifact batch returned
untouched (the equation holds for every builder factory, so no delegated
builder is ever invoked); and for the one supported name, `Build` routes to
the local path. -/
theorem Build_rejectsUnsupportedEnv :
    (∀ (env : ExecutionEnvironment) (skipTests : Bool)
       (currentContext : Except String String)
       (newBuilder : LocalBuild → String → Bool →
         Except String (List Artifact → Except String (List BuildResult)))
       (artifacts : List Artifact), env.name ≠ constantsLocal →
      Build env skipTests currentContext newBuilder artifacts =
        (artifacts,
         .error (env.name ++ " is not a supported environment for builder bazel"))) ∧
    (∀ (env : ExecutionEnvironment) (skipTests : Bool)
       (currentContext : Except String String)
       (newBuilder : LocalBuild → String → Bool →
         Except String (List Artifact → Except String (List BuildResult)))
       (artifacts : List Artifact), env.name = constantsLocal →
      Build env skipTests currentContext newBuilder artifacts =
        localBuild env skipTests currentContext newBuilder artifacts) := by
  constructor
  · intro env skipTests currentContext newBuilder artifacts h
    unfold Build
    rw [if_neg h]
  · intro env skipTests currentContext newBuilder artifacts h
    unfold Build
    rw [if_pos h]

/-- Witness for C5: the environment "remote-unknown" is rejected by name,
with the batch unchanged. -/
theorem Build_rejectsUnsupportedEnv_witness :
    Build { name := "remote-unknown" } false (.ok "ctx")
        (fun _ _ _ => .ok (fun _ => .ok [])) [freshArtifact] =
      ([freshArtifact],
       .error ("remote-unknown" ++ " is not a supported environment for builder bazel")) :=
  Build_rejectsUnsupportedEnv.1 { name := "remote-unknown" } false (.ok "ctx")
    (fun _ _ _ => .ok (fun _ => .ok [])) [freshArtifact] (by decide)

/-! ## C2: all-or-nothing batch materialization -/

/-- The materialization loop stops at the first failing artifact: the
artifacts before it keep their (successfully materialized) post-states, the
failing artifact and everything after it are untouched, and the returned
error wraps the failing artifact's error with its image name. -/
theorem setArtifacts_firstError (pre : List Artifact) (a : Artifact)
    (post : List Artifact) (e : String)
    (hpre : ∀ p ∈ pre, (setArtifact p).2 = none)
    (ha : (setArtifact a).2 = some e) :
    setArtifacts (pre ++ a :: post) =
      (pre.map (fun p => (setArtifact p).1) ++ a :: post,
       some (wrap ("setting artifact " ++ a.imageName) e)) := by
  induction pre with
  | nil =>
    have hsa : setArtifact a = (a, some e) := by
      conv_rhs => rw [← setArtifact_error_fst ha, ← ha]
    simp only [List.nil_append, List.map_nil, setArtifacts, hsa]
  | cons p pre ih =>
    have hp : (setArtifact p).2 = none := hpre p (List.mem_cons_self p pre)
    obtain ⟨p', hp'⟩ : ∃ p', setArtifact p = (p', none) :=
      ⟨(setArtifact p).1, by conv_rhs => rw [← hp]⟩
    have ihh := ih (fun q hq => hpre q (List.mem_cons_of_mem p hq))
    simp only [List.cons_append, List.map_cons, setArtifacts, hp', List.append_eq, ihh]

/-- C2: All-or-nothing batch materialization: with the environment adapted,
the cluster context obtained and the local builder constructed, if
`setArtifact` fails on artifact `a` of the batch with error `e` while every
artifact before it succeeds, `Build` returns the error wrapping `e` with
`a`'s image name; the artifacts after `a` are untouched (the batch
post-state keeps `a :: post` verbatim), no list of build results is
returned, and the equation holds for every delegated builder `f`, so the
delegated builder is never invoked. -/
theorem Build_allOrNothing (env : ExecutionEnvironment) (skipTests : Bool)
    (currentContext : Except String String)
    (newBuilder : LocalBuild → String → Bool →
      Except String (List Artifact → Except String (List BuildResult)))
    (l : LocalBuild) (k : String)
    (f : List Artifact → Except String (List BuildResult))
    (pre post : List Artifact) (a : Artifact) (e : String)
    (hname : env.name = constantsLocal)
    (hadapt : adaptEnv env.properties = .ok l)
    (hcc : currentContext = .ok k)
    (hnb : newBuilder l k skipTests = .ok f)
    (hpre : ∀ p ∈ pre, (setArtifact p).2 = none)
    (ha : (setArtifact a).2 = some e) :
    Build env skipTests currentContext newBuilder (pre ++ a :: post) =
      (pre.map (fun p => (setArtifact p).1) ++ a :: post,
       .error (wrap ("setting artifact " ++ a.imageName) e)) := by
  unfold Build
  rw [if_pos hname]
  unfold localBuild
  simp only [hadapt, hcc, hnb, setArtifacts_firstError pre a post e hpre ha]

/-- Witness for C2: a two-artifact batch whose second artifact has an empty
build target fails as a whole, the first artifact materialized and the
failing one untouched, for a concrete delegated builder. -/
theorem Build_allOrNothing_witness :
    Build { name := "local" } false (.ok "ctx")
        (fun _ _ _ => .ok (fun arts => .ok (arts.map (fun a => ⟨a.imageName, "tag"⟩))))
        [freshArtifact, emptyTargetArtifact] =
      ([freshArtifactOnce, emptyTargetArtifact],
       .error (wrap ("setting artifact " ++ "app") "app must have an associated build target")) := by
  have h := Build_allOrNothing { name := "local" } false (.ok "ctx")
    (fun _ _ _ => .ok (fun arts => .ok (arts.map (fun a => ⟨a.imageName, "tag"⟩))))
    {} "ctx" (fun arts => .ok (arts.map (fun a => ⟨a.imageName, "tag"⟩)))
    [freshArtifact] [] emptyTargetArtifact "app must have an associated build target"
    rfl rfl rfl rfl (by intro p hp; simp at hp; subst hp; rfl) rfl
  simpa using h

/-! ## Path normalization lemmas -/

/-- Anchoring any path at an absolute workspace yields an absolute path. -/
theorem isAbs_joinPath (ws p : String) (h : isAbs ws = true) :
    isAbs (joinPath ws p) = true := by
  simp only [isAbs, decide_eq_true_eq] at h ⊢
  unfold joinPath
  rw [String.data_append, String.data_append]
  cases hd : ws.data with
  | nil => simp [hd] at h
  | cons c t =>
    rw [hd] at h
    simpa using h

/-- Every path produced by `absolutePaths` over an absolute workspace is
absolute. -/
theorem absolutePaths_all_abs (ws : String) (paths : List String)
    (hws : isAbs ws = true) :
    ∀ q ∈ absolutePaths ws paths, isAbs q = true := by
  intro q hq
  unfold absolutePaths at hq
  rw [List.mem_map] at hq
  obtain ⟨p, hp, rfl⟩ := hq
  cases h : isAbs p with
  | true => simp [h]
  | false =>
    simp only [h, Bool.false_eq_true, if_false]
    exact isAbs_joinPath ws p hws

/-! ## C6: path normalization -/

/-- C6: On a successful call, `DependenciesForArtifact` returns exactly the
enumerator's paths normalized by `absolutePaths`: every returned path is
absolute (given an absolute workspace), every relative enumerator path is
anchored at the artifact's workspace and every absolute enumerator path is
passed through; the gcb variant behaves the same way. -/
theorem DependenciesForArtifact_normalizesPaths
    (getDeps : String → BazelArtifact → Except String (List String))
    (a a' : Artifact) (ba : BazelArtifact) (paths : List String)
    (hws : isAbs a.workspace = true)
    (hset : setArtifact a = (a', none))
    (hba : a'.artifactType.bazelArtifact = some ba)
    (hget : getDeps a'.workspace ba = .ok paths) :
    DependenciesForArtifact getDeps a = (a', .ok (absolutePaths a.workspace paths)) ∧
    (∀ q ∈ absolutePaths a.workspace paths, isAbs q = true) ∧
    (∀ p ∈ paths,
      (isAbs p = true → p ∈ absolutePaths a.workspace paths) ∧
      (isAbs p = false → joinPath a.workspace p ∈ absolutePaths a.workspace paths)) ∧
    (∀ (getDeps2 : String → Option DockerArtifact → Except String (List String))
       (a2 : Artifact) (paths2 : List String), isAbs a2.workspace = true →
      getDeps2 a2.workspace a2.artifactType.dockerArtifact = .ok paths2 →
      gcbDependenciesForArtifact getDeps2 a2 = .ok (absolutePaths a2.workspace paths2) ∧
      ∀ q ∈ absolutePaths a2.workspace paths2, isAbs q = true) := by
  have hwseq : a'.workspace = a.workspace := by
    have hm := (setArtifact_preserves_meta a).2.1
    rw [hset] at hm
    exact hm
  have hget' : getDeps a.workspace ba = .ok paths := by rw [← hwseq]; exact hget
  refine ⟨?_, absolutePaths_all_abs _ _ hws, ?_, ?_⟩
  · unfold DependenciesForArtifact
    simp only [hset, hba, hwseq, hget']
  · intro p hp
    constructor
    · intro habs
      unfold absolutePaths
      have hmem := List.mem_map_of_mem
        (fun p => if isAbs p then p else joinPath a.workspace p) hp
      simpa [habs] using hmem
    · intro habs
      unfold absolutePaths
      have hmem := List.mem_map_of_mem
        (fun p => if isAbs p then p else joinPath a.workspace p) hp
      simpa [habs] using hmem
  · intro g2 a2 paths2 hws2 hg2
    refine ⟨?_, absolutePaths_all_abs _ _ hws2⟩
    unfold gcbDependenciesForArtifact
    simp only [hg2]

/-- Witness for C6: an enumerator returning a relative and an absolute path
yields the relative one anchored at "/src" and the absolute one unchanged. -/
theorem DependenciesForArtifact_normalizesPaths_witness :
    DependenciesForArtifact (fun _ _ => .ok ["main.go", "/abs/BUILD"]) freshArtifact =
      (freshArtifactOnce, .ok ["/src/main.go", "/abs/BUILD"]) := by
  have h := (DependenciesForArtifact_normalizesPaths
    (fun _ _ => .ok ["main.go", "/abs/BUILD"])
    freshArtifact freshArtifactOnce { buildTarget := "//:app" } ["main.go", "/abs/BUILD"]
    rfl rfl rfl rfl).1
  exact h

/-! ## C7: the dependencies call has no materialization precondition -/

/-- A concrete enumerator that succeeds with two workspace-relative paths. -/
def onDemandEnum : String → BazelArtifact → Except String (List String) :=
  fun _ _ => .ok ["main.go", "BUILD"]

/-- Counterexample to C7: on this not-yet-materialized artifact (its
`BazelArtifact` payload is `none`), `DependenciesForArtifact` does not fail
with a nil-config error — it succeeds, because it materializes the config
itself before enumerating. -/
theorem DependenciesForArtifact_noPrecondition_counterexample :
    freshArtifact.artifactType.bazelArtifact = none ∧
    (DependenciesForArtifact onDemandEnum freshArtifact).2 =
      .ok ["/src/main.go", "/src/BUILD"] :=
  ⟨rfl, rfl⟩

/-- C7 amended: `DependenciesForArtifact` does not require materialization
to have already happened — it calls `setArtifact` itself first; when that
on-demand materialization fails, the call fails with exactly that error and
the enumerator is never invoked (the equation holds for every enumerator). -/
theorem DependenciesForArtifact_materializesOnDemand
    (getDeps : String → BazelArtifact → Except String (List String))
    (a a' : Artifact) (e : String)
    (h : setArtifact a = (a', some e)) :
    DependenciesForArtifact getDeps a = (a', .error e) := by
  unfold DependenciesForArtifact
  simp only [h]

/-- Witness for C7's amended theorem: the empty-build-target artifact makes
the dependencies call fail with the materialization error. -/
theorem DependenciesForArtifact_materializesOnDemand_witness :
    DependenciesForArtifact onDemandEnum emptyTargetArtifact =
      (emptyTargetArtifact, .error ("app" ++ " must have an associated build target")) :=
  DependenciesForArtifact_materializesOnDemand onDemandEnum emptyTargetArtifact
    emptyTargetArtifact ("app" ++ " must have an associated build target") rfl

/-! ## C8: dependency-resolution failure -/

/-- A concrete enumerator that always fails. -/
def failingEnum : String → BazelArtifact → Except String (List String) :=
  fun _ _ => .error "boom"

/-- Counterexample to C8: for the bazel builder, the enumerator failure on
the artifact named "app" is wrapped as "getting bazel dependencies: boom",
which does not contain the image name "app" anywhere. -/
theorem DependenciesForArtifact_errorLacksImageName_counterexample :
    (DependenciesForArtifact failingEnum freshArtifactOnce).2 =
      .error "getting bazel dependencies: boom" ∧
    ¬ ("app".data <:+: ("getting bazel dependencies: boom").data) :=
  ⟨rfl, by decide⟩

/-- C8 amended: if the enumerator fails, the bazel builder returns the
enumerator's error wrapped with the fixed annotation
"getting bazel dependencies" (no image name) and no path list at all, while
the gcb variant wraps the enumerator's error with an annotation that does
carry the artifact's image name; neither returns a partial path list. -/
theorem DependenciesForArtifact_wrapsEnumeratorError
    (getDeps : String → BazelArtifact → Except String (List String))
    (a a' : Artifact) (ba : BazelArtifact) (e : String)
    (hset : setArtifact a = (a', none))
    (hba : a'.artifactType.bazelArtifact = some ba)
    (hget : getDeps a'.workspace ba = .error e) :
    DependenciesForArtifact getDeps a = (a', .error (wrap "getting bazel dependencies" e)) ∧
    (∀ (getDeps2 : String → Option DockerArtifact → Except String (List String))
       (a2 : Artifact) (e2 : String),
      getDeps2 a2.workspace a2.artifactType.dockerArtifact = .error e2 →
      gcbDependenciesForArtifact getDeps2 a2 =
        .error (wrap ("getting dependencies for " ++ a2.imageName) e2)) := by
  constructor
  · unfold DependenciesForArtifact
    simp only [hset, hba, hget]
  · intro g2 a2 e2 hg2
    unfold gcbDependenciesForArtifact
    simp only [hg2]

/-- Witness for C8's amended theorem: the failing enumerator on the
materialized "app" artifact yields the wrapped fixed-annotation error. -/
theorem DependenciesForArtifact_wrapsEnumeratorError_witness :
    DependenciesForArtifact failingEnum freshArtifactOnce =
      (freshArtifactOnce, .error (wrap "getting bazel dependencies" "boom")) :=
  (DependenciesForArtifact_wrapsEnumeratorError failingEnum freshArtifactOnce
    freshArtifactOnce { buildTarget := "//:app" } "boom" rfl rfl rfl).1

/-! ## C9: environment adaptation defaults on absence -/

/-- C9: Adapting a nil properties bag and adapting an empty bag both
succeed with the zero-value `LocalBuild`, and the adaptation step fails
only when the structural conversion of the bag itself fails (in which case
the error wraps the conversion error); the adapter is a pure function of
the environment value, so the environment is never mutated. -/
theorem adaptEnv_defaultsOnAbsence :
    adaptEnv .nil = .ok {} ∧
    adaptEnv (.bag []) = .ok {} ∧
    (∀ p e, adaptEnv p = .error e →
      ∃ e0, p = .malformed e0 ∧
        e = wrap "converting execution env to localBuild struct" e0) := by
  refine ⟨rfl, rfl, ?_⟩
  intro p e h
  cases p with
  | nil => simp [adaptEnv, cloneThroughJSON] at h
  | bag fields => simp [adaptEnv, cloneThroughJSON] at h
  | malformed e0 =>
    refine ⟨e0, rfl, ?_⟩
    simp [adaptEnv, cloneThroughJSON] at h
    exact h.symm

/-- Witness for C9: applying the failure characterization at the concrete
malformed bag. -/
theorem adaptEnv_defaultsOnAbsence_witness :
    ∃ e0, Properties.malformed "bad" = Properties.malformed e0 ∧
      wrap "converting execution env to localBuild struct" "bad" =
        wrap "converting execution env to localBuild struct" e0 :=
  adaptEnv_defaultsOnAbsence.2.2 (.malformed "bad")
    (wrap "converting execution env to localBuild struct" "bad") rfl

end Skaffold
